import Mathlib

/-!
Shallow embedding of the sticky header controller (`HeaderComponent`) of the
shopify-theme-fabric theme (`src/unnamed/part_000`) and proofs about its
event behaviour.

The component is a DOM custom element; we embed it as a state record
(`Header`) together with pure transition functions, one per event handler of
the source:

* the `ResizeObserver` callback (publishes `--header-height` and possibly
  restores the inline menu),
* `#handleIntersectionUpdate` (sticky state in `always` mode, the `offscreen`
  flag in `scroll-up` mode),
* `#handleWindowScroll` (direction tracking, the `scroll-up` state machine,
  and the iOS-Safari deferred state path),
* `#updateMenuVisibility` / the `overflowMinimum` listener,
* `connectedCallback` / `disconnectedCallback`,
* the firing of the single pending `setTimeout` (hide-animation delay) and of
  the single pending `requestAnimationFrame` (iOS-Safari deferred write).

Environment values read inside a handler (`document.scrollingElement.scrollTop`,
`getBoundingClientRect().top`, `window.innerWidth`, observer entries) are
passed as parameters of the event; within one synchronous handler invocation
they are single values, as in the browser.  JS numbers are embedded as `ℚ`.
DOM attribute values are embedded literally: `data-sticky-state` and
`data-scroll-direction` as small enumerations (with an `unset` value for the
attribute being absent), the `sticky` configuration attribute as
`Option String` (`getAttribute` yields null when absent).  The external
utility `changeMetaThemeColor` is embedded as a counter of its invocations;
the external base class `Component` contributes nothing to the fields the
claims are about.

Two behaviourally inert details of the source are collapsed: the `#timeout`
and `#safariIntersectionTimeout` fields hold opaque ids in JS and we model
only whether a callback is pending (after a timeout fires, the stale id left
in the field is only ever passed to `clearTimeout`, a no-op, or overwritten),
and `clearTimeout` on a null field is skipped in JS but setting the field to
`none` unconditionally is the same function of the state.
-/

/-- Value of the `data-sticky-state` attribute.  `unset` is the attribute
being absent, as it is before any handler writes it. -/
inductive SState
  | unset
  | inactive
  | active
  | idle
deriving DecidableEq, Repr

/-- Value of the `data-scroll-direction` attribute.  `unset` is the attribute
being absent. -/
inductive SDir
  | unset
  | none
  | up
  | down
deriving DecidableEq, Repr

/-- Environment values a scroll event (or a deferred animation frame) reads:
`document.scrollingElement.scrollTop` and the header's
`getBoundingClientRect().top`. -/
structure ScrollEnv where
  scrollTop : ℚ
  headerTop : ℚ
deriving DecidableEq, Repr

/-- The state of one `HeaderComponent` instance together with the
DOM-observable values it writes. -/
structure Header where
  /-- current value of the `sticky` attribute (`getAttribute` result) -/
  stickyAttr : Option String
  /-- `this.dataset.stickyState` -/
  stickyState : SState
  /-- `this.dataset.scrollDirection` -/
  scrollDirection : SDir
  /-- presence of the `data-animating` attribute -/
  animating : Bool
  /-- private field `#offscreen` -/
  offscreen : Bool
  /-- private field `#lastScrollTop` -/
  lastScrollTop : ℚ
  /-- pending hide-animation `setTimeout`: `some delay` when a callback is
  scheduled (the callback is the fixed one of `#handleWindowScroll`) -/
  timeout : Option ℚ
  /-- private field `#isIOSSafari` -/
  isIOSSafari : Bool
  /-- whether the iOS-Safari `requestAnimationFrame` callback is pending
  (`#safariIntersectionTimeout` non-null) -/
  safariIntersectionTimeout : Bool
  /-- private field `#menuDrawerHiddenWidth` -/
  menuDrawerHiddenWidth : Option ℚ
  /-- `refs.headerMenu` has class `hidden` -/
  menuHidden : Bool
  /-- `refs.headerDrawerContainer` has class `desktop:hidden` -/
  drawerDesktopHidden : Bool
  /-- value of the `--header-height` custom property on `document.body` -/
  headerHeight : String
  /-- `#resizeObserver` is observing this element -/
  resizeObserving : Bool
  /-- `#intersectionObserver`: `some alwaysSticky` once created, recording the
  `alwaysSticky` flag captured by `#observeStickyPosition` (the configured
  threshold is `0.95` when the flag is true, `0` otherwise) -/
  intersectionObserver : Option Bool
  /-- the document `scroll` listener is attached -/
  scrollListener : Bool
  /-- the `overflowMinimum` listener is attached -/
  overflowListener : Bool
  /-- number of `changeMetaThemeColor` invocations performed so far -/
  metaThemeColorCount : Nat
deriving DecidableEq, Repr

/-- Private constant `#animationDelay` (milliseconds). -/
def animationDelay : ℚ := 150

/-- External utility `changeMetaThemeColor`, embedded as its invocation
count. -/
def changeMetaThemeColor (s : Header) : Header :=
  { s with metaThemeColorCount := s.metaThemeColorCount + 1 }

/-- `#updateMenuVisibility(hideMenu)`.  `innerWidth` is `window.innerWidth`
at call time. -/
def updateMenuVisibility (s : Header) (hideMenu : Bool) (innerWidth : ℚ) :
    Header :=
  if hideMenu then
    { s with drawerDesktopHidden := false
             menuDrawerHiddenWidth := some innerWidth
             menuHidden := true }
  else
    { s with drawerDesktopHidden := true
             menuDrawerHiddenWidth := Option.none
             menuHidden := false }

/-- The `#resizeObserver` callback: publish the header's measured height and
restore the inline menu when the viewport has widened past the recorded
hide-width.  The JS guard is
`this.#menuDrawerHiddenWidth && window.innerWidth > this.#menuDrawerHiddenWidth`,
so a recorded width of `0` is falsy and never triggers the restore. -/
def resizeObserverCallback (s : Header) (height innerWidth : ℚ) : Header :=
  let s := { s with headerHeight := toString height ++ "px" }
  match s.menuDrawerHiddenWidth with
  | some w => if w ≠ 0 ∧ innerWidth > w then updateMenuVisibility s false innerWidth else s
  | Option.none => s

/-- `#handleIntersectionUpdate(entry, alwaysSticky)` for a delivered entry
with the given `isIntersecting` flag. -/
def handleIntersectionUpdate (s : Header) (isIntersecting : Bool)
    (alwaysSticky : Bool) : Header :=
  if alwaysSticky then
    if s.isIOSSafari then s
    else
      let newState := if isIntersecting then SState.inactive else SState.active
      changeMetaThemeColor { s with stickyState := newState }
  else
    { s with offscreen := !isIntersecting || decide (s.stickyState = SState.active) }

/-- The state the iOS-Safari scroll path computes from geometry:
`inactive` when `headerTop >= -5 && scrollTop <= 5`, else `active`
(`isAtTopWithThreshold` / `currentIsAtTop` in the source). -/
def safariNewState (headerTop scrollTop : ℚ) : SState :=
  if headerTop ≥ -5 ∧ scrollTop ≤ 5 then SState.inactive else SState.active

/-- The `requestAnimationFrame` callback scheduled by the iOS-Safari scroll
path: clear the pending handle, recompute geometry, and write the state (with
a theme-color update) only when it differs from the current one. -/
def safariFrameCallback (s : Header) (env : ScrollEnv) : Header :=
  let s := { s with safariIntersectionTimeout := false }
  let currentNewState := safariNewState env.headerTop env.scrollTop
  if s.stickyState ≠ currentNewState then
    changeMetaThemeColor { s with stickyState := currentNewState }
  else s

/-- `#handleWindowScroll`.  `env` carries the scroll offset and the header's
bounding-box top read during this synchronous invocation. -/
def handleWindowScroll (s : Header) (env : ScrollEnv) : Header :=
  let stickyMode := s.stickyAttr
  if s.offscreen = false ∧ stickyMode ≠ some "always" then s
  else
    let scrollTop := env.scrollTop
    let isScrollingUp : Bool := decide (scrollTop < s.lastScrollTop)
    let s1 := { s with timeout := Option.none }
    if stickyMode = some "always" then
      let isAtTop : Bool := decide (env.headerTop ≥ 0)
      let s2 :=
        if s1.isIOSSafari then
          if s1.safariIntersectionTimeout = false then
            { s1 with safariIntersectionTimeout := true }
          else s1
        else s1
      let s3 :=
        if isAtTop then { s2 with scrollDirection := SDir.none }
        else if isScrollingUp then { s2 with scrollDirection := SDir.up }
        else { s2 with scrollDirection := SDir.down }
      { s3 with lastScrollTop := scrollTop }
    else
      let s2 :=
        if isScrollingUp then
          let s' := { s1 with animating := false }
          if env.headerTop ≥ 0 then
            { s' with offscreen := false
                      stickyState := SState.inactive
                      scrollDirection := SDir.none }
          else
            { s' with stickyState := SState.active
                      scrollDirection := SDir.up }
        else if s1.stickyState = SState.active then
          { s1 with scrollDirection := SDir.none
                    animating := true
                    timeout := some animationDelay }
        else
          { s1 with scrollDirection := SDir.none
                    stickyState := SState.idle }
      { s2 with lastScrollTop := scrollTop }

/-- JS truthiness of the `sticky` attribute value in
`if (stickyMode) { ... }`: null and the empty string are falsy. -/
def stickyTruthy : Option String → Bool
  | Option.none => false
  | some m => decide (m ≠ "")

/-- `connectedCallback` (the base class contributes nothing to the fields
modelled here).  `ios` is the result of the user-agent sniff. -/
def connectedCallback (s : Header) (ios : Bool) : Header :=
  let s := { s with resizeObserving := true
                    overflowListener := true
                    isIOSSafari := ios }
  let stickyMode := s.stickyAttr
  if stickyTruthy stickyMode then
    let s :=
      if s.intersectionObserver.isSome then s
      else { s with intersectionObserver := some (decide (stickyMode = some "always")) }
    if stickyMode = some "scroll-up" ∨ stickyMode = some "always" then
      { s with scrollListener := true }
    else s
  else s

/-- `disconnectedCallback`: disconnect both observers, remove both listeners,
cancel the pending timeout and animation frame, and reset the published
height. -/
def disconnectedCallback (s : Header) : Header :=
  { s with resizeObserving := false
           intersectionObserver := Option.none
           overflowListener := false
           scrollListener := false
           timeout := Option.none
           safariIntersectionTimeout := false
           headerHeight := "0px" }

/-- One event delivered to the component after attach. -/
inductive Event
  /-- the resize observer reports the header's height; `innerWidth` is the
  viewport width at that moment -/
  | resize (height innerWidth : ℚ)
  /-- the intersection observer delivers an entry -/
  | intersection (isIntersecting : Bool)
  /-- a document scroll event -/
  | scroll (env : ScrollEnv)
  /-- the `overflowMinimum` custom event from the header menu -/
  | overflowMinimum (minimumReached : Bool) (innerWidth : ℚ)
  /-- the pending hide-animation timeout fires -/
  | timeoutFire
  /-- the pending animation frame fires; `env` is the geometry at frame time -/
  | frameFire (env : ScrollEnv)
  /-- the element is removed from the document -/
  | disconnect
deriving DecidableEq, Repr

/-- Deliver one event: each callback runs only while its observer/listener is
attached, and timer/frame callbacks only while pending. -/
def step (s : Header) : Event → Header
  | Event.resize h w => if s.resizeObserving then resizeObserverCallback s h w else s
  | Event.intersection b =>
      match s.intersectionObserver with
      | some alwaysSticky => handleIntersectionUpdate s b alwaysSticky
      | Option.none => s
  | Event.scroll env => if s.scrollListener then handleWindowScroll s env else s
  | Event.overflowMinimum m w =>
      if s.overflowListener then updateMenuVisibility s m w else s
  | Event.timeoutFire =>
      match s.timeout with
      | some _ => { s with timeout := Option.none
                           stickyState := SState.idle
                           animating := false }
      | Option.none => s
  | Event.frameFire env =>
      if s.safariIntersectionTimeout then safariFrameCallback s env else s
  | Event.disconnect => disconnectedCallback s

/-- Deliver a sequence of events. -/
def run (s : Header) (es : List Event) : Header := es.foldl step s

/-- A freshly constructed element with the given `sticky` attribute, before
`connectedCallback`: the field initialisers of the class, no attributes
written, no observers or listeners attached. -/
def initialHeader (sticky : Option String) : Header :=
  { stickyAttr := sticky
    stickyState := SState.unset
    scrollDirection := SDir.unset
    animating := false
    offscreen := false
    lastScrollTop := 0
    timeout := Option.none
    isIOSSafari := false
    safariIntersectionTimeout := false
    menuDrawerHiddenWidth := Option.none
    menuHidden := false
    drawerDesktopHidden := true
    headerHeight := ""
    resizeObserving := false
    intersectionObserver := Option.none
    scrollListener := false
    overflowListener := false
    metaThemeColorCount := 0 }

/-- A header attached with `sticky="scroll-up"` on a non-iOS-Safari
platform. -/
def attachedScrollUp : Header :=
  connectedCallback (initialHeader (some "scroll-up")) false

/-- A header attached with `sticky="always"` on a non-iOS-Safari platform. -/
def attachedAlways : Header :=
  connectedCallback (initialHeader (some "always")) false

example : attachedScrollUp.scrollListener = true := by decide
example : attachedScrollUp.intersectionObserver = some false := by decide
example : attachedAlways.intersectionObserver = some true := by decide
example :
    (step (step attachedScrollUp (Event.intersection false))
        (Event.scroll ⟨10, -20⟩)).stickyState = SState.idle := by decide

/-- The C2 scenario's starting state: attached with `sticky="scroll-up"`,
offscreen, `lastScrollTop = 0`, with arbitrary prior state, direction and
animating flag. -/
def c2Start (st : SState) (dir : SDir) (anim : Bool) : Header :=
  { attachedScrollUp with
      offscreen := true
      stickyState := st
      scrollDirection := dir
      animating := anim }

/-- A state in which the inline menu was hidden at a recorded viewport width
of 800. -/
def c3Hidden : Header :=
  { attachedScrollUp with
      menuDrawerHiddenWidth := some 800
      menuHidden := true
      drawerDesktopHidden := false }

/-- Browser model for the observer configured with `threshold: 0.95`: the
delivered entry is reported as intersecting iff the header's visibility ratio
is at least 0.95 (the source sets the threshold to 0.95, rather than 1.0,
precisely so that a ratio below 95% counts as non-intersecting). -/
def intersectsAt95 (ratio : ℚ) : Bool := decide (95 / 100 ≤ ratio)

/-- A header attached with `sticky="always"` on the iOS-Safari platform. -/
def attachedAlwaysIOS : Header :=
  connectedCallback (initialHeader (some "always")) true

/-- The claim's reading of the iOS threshold condition — "the header's
bounding-box top is within 5px of its natural position AND the page scroll
offset is within 5px of zero" — i.e. a distance of at most 5 on both sides.
Stated from the claim's words, for comparison with the source's one-sided
condition `headerTop >= -5 && scrollTop <= 5`. -/
def claimedSafariNewState (headerTop scrollTop : ℚ) : SState :=
  if |headerTop| ≤ 5 ∧ |scrollTop| ≤ 5 then SState.inactive else SState.active

/-- An iOS-Safari `always` header with a pending animation frame while in the
`active` state. -/
def c5Pending : Header :=
  { attachedAlwaysIOS with
      safariIntersectionTimeout := true
      stickyState := SState.active }

/-- Everything a handler can read or write except the `sticky` attribute
itself: the state of the component as observed through every field other than
`stickyAttr`. -/
def outputs (s : Header) :=
  (s.stickyState, s.scrollDirection, s.animating, s.offscreen, s.lastScrollTop,
   s.timeout, s.isIOSSafari, s.safariIntersectionTimeout,
   s.menuDrawerHiddenWidth, s.menuHidden, s.drawerDesktopHidden,
   s.headerHeight, s.resizeObserving, s.intersectionObserver,
   s.scrollListener, s.overflowListener, s.metaThemeColorCount)

/-- An offscreen `scroll-up` header in the `idle` state with `data-animating`
set and a previous scroll offset of 500. -/
def c8State : Header :=
  { attachedScrollUp with
      offscreen := true
      stickyState := SState.idle
      scrollDirection := SDir.up
      animating := true
      lastScrollTop := 500 }

/-! ### An invariant of `scroll-up` runs -/

/-- Facts preserved by every event delivered to a header attached with
`sticky="scroll-up"` on a non-iOS-Safari platform: the attribute is stable
under `step`, the intersection observer (if any) captured
`alwaysSticky = false`, no animation frame is ever pending, and a pending
hide-animation timeout implies the state is `active` with `data-animating`
set. -/
def ScrollUpInv (s : Header) : Prop :=
  s.stickyAttr = some "scroll-up" ∧
  (s.intersectionObserver = Option.none ∨ s.intersectionObserver = some false) ∧
  s.safariIntersectionTimeout = false ∧
  (s.timeout.isSome = true → s.stickyState = SState.active ∧ s.animating = true)

theorem scrollUpInv_attached : ScrollUpInv attachedScrollUp := by
  unfold ScrollUpInv; decide

theorem scrollUpInv_step (s : Header) (e : Event) (h : ScrollUpInv s) :
    ScrollUpInv (step s e) := by
  obtain ⟨hattr, hobs, hsafari, htime⟩ := h
  unfold ScrollUpInv
  cases e with
  | resize height innerWidth =>
      simp only [step, resizeObserverCallback, updateMenuVisibility]
      split
      · split
        · split
          · split <;> exact ⟨hattr, hobs, hsafari, htime⟩
          · exact ⟨hattr, hobs, hsafari, htime⟩
        · exact ⟨hattr, hobs, hsafari, htime⟩
      · exact ⟨hattr, hobs, hsafari, htime⟩
  | intersection b =>
      simp only [step]
      split
      · rename_i alwaysSticky heq
        rcases hobs with hobs | hobs
        · rw [hobs] at heq; exact absurd heq (by simp)
        · rw [hobs] at heq
          injection heq with heq
          subst heq
          simp only [handleIntersectionUpdate, Bool.false_eq_true, if_false]
          exact ⟨hattr, Or.inr hobs, hsafari, htime⟩
      · exact ⟨hattr, hobs, hsafari, htime⟩
  | scroll env =>
      simp only [step]
      split
      · simp only [handleWindowScroll]
        split
        · exact ⟨hattr, hobs, hsafari, htime⟩
        · split
          · rename_i halways
            rw [hattr] at halways
            exact absurd halways (by decide)
          · split
            · split <;>
                exact ⟨hattr, hobs, hsafari, by intro ht; simp at ht⟩
            · split
              · rename_i hact
                exact ⟨hattr, hobs, hsafari, fun _ => ⟨hact, rfl⟩⟩
              · exact ⟨hattr, hobs, hsafari, by intro ht; simp at ht⟩
      · exact ⟨hattr, hobs, hsafari, htime⟩
  | overflowMinimum m w =>
      simp only [step, updateMenuVisibility]
      split
      · split <;> exact ⟨hattr, hobs, hsafari, htime⟩
      · exact ⟨hattr, hobs, hsafari, htime⟩
  | timeoutFire =>
      simp only [step]
      split
      · exact ⟨hattr, hobs, hsafari, by intro ht; simp at ht⟩
      · exact ⟨hattr, hobs, hsafari, htime⟩
  | frameFire env =>
      simp only [step]
      split
      · rename_i hcond
        rw [hsafari] at hcond
        exact absurd hcond (by decide)
      · exact ⟨hattr, hobs, hsafari, htime⟩
  | disconnect =>
      exact ⟨hattr, Or.inl rfl, rfl, by intro ht; simp [step, disconnectedCallback] at ht⟩

theorem scrollUpInv_run_of (s : Header) (es : List Event) (h : ScrollUpInv s) :
    ScrollUpInv (run s es) := by
  induction es generalizing s with
  | nil => exact h
  | cons e es ih => exact ih (step s e) (scrollUpInv_step s e h)

theorem scrollUpInv_run (es : List Event) :
    ScrollUpInv (run attachedScrollUp es) :=
  scrollUpInv_run_of attachedScrollUp es scrollUpInv_attached

/-! ### Characterizations of the scroll handler's branches -/

/-- The scroll handler's early return: with the header not offscreen and a
mode other than `always`, a scroll event is a no-op. -/
theorem handleWindowScroll_noop (s : Header) (env : ScrollEnv)
    (h1 : s.offscreen = false) (h2 : ¬s.stickyAttr = some "always") :
    handleWindowScroll s env = s := by
  simp only [handleWindowScroll]
  rw [if_pos ⟨h1, h2⟩]

/-- The scroll handler's non-`always` branch, as one case split: scrolling up
resets to fully inactive at the natural position and shows the sticky header
otherwise; scrolling down schedules the deferred `idle` transition while
`active` and writes `idle` directly otherwise. -/
theorem handleWindowScroll_scrollUp_eq (s : Header) (env : ScrollEnv)
    (hmode : ¬s.stickyAttr = some "always") (hoff : s.offscreen = true) :
    handleWindowScroll s env =
      if env.scrollTop < s.lastScrollTop then
        (if env.headerTop ≥ 0 then
          { s with animating := false, timeout := Option.none, offscreen := false,
                   stickyState := SState.inactive, scrollDirection := SDir.none,
                   lastScrollTop := env.scrollTop }
         else
          { s with animating := false, timeout := Option.none,
                   stickyState := SState.active, scrollDirection := SDir.up,
                   lastScrollTop := env.scrollTop })
      else if s.stickyState = SState.active then
        { s with scrollDirection := SDir.none, animating := true,
                 timeout := some animationDelay, lastScrollTop := env.scrollTop }
      else
        { s with scrollDirection := SDir.none, stickyState := SState.idle,
                 timeout := Option.none, lastScrollTop := env.scrollTop } := by
  simp only [handleWindowScroll]
  rw [if_neg (by simp [hoff]), if_neg hmode]
  by_cases hup : env.scrollTop < s.lastScrollTop
  · rw [if_pos hup,
      if_pos (show decide (env.scrollTop < s.lastScrollTop) = true by simp [hup])]
    by_cases hat : env.headerTop ≥ 0
    · rw [if_pos hat, if_pos hat]
    · rw [if_neg hat, if_neg hat]
  · rw [if_neg hup,
      if_neg (show ¬decide (env.scrollTop < s.lastScrollTop) = true by simp [hup])]
    by_cases hact : s.stickyState = SState.active
    · rw [if_pos hact,
        if_pos (show ({ s with timeout := Option.none } : Header).stickyState
          = SState.active from hact)]
    · rw [if_neg hact,
        if_neg (show ¬({ s with timeout := Option.none } : Header).stickyState
          = SState.active from hact)]

/-- The scroll handler's `always` branch: it never touches
`data-sticky-state`; it schedules the deferred frame callback on the
iOS-Safari path (keeping at most one pending), and records the direction —
`none` at the top, else `up`/`down` by comparison with the previous
offset. -/
theorem handleWindowScroll_always_eq (s : Header) (env : ScrollEnv)
    (hmode : s.stickyAttr = some "always") :
    handleWindowScroll s env =
      { s with timeout := Option.none,
               safariIntersectionTimeout :=
                 (s.isIOSSafari || s.safariIntersectionTimeout),
               scrollDirection :=
                 (if env.headerTop ≥ 0 then SDir.none
                  else if env.scrollTop < s.lastScrollTop then SDir.up
                  else SDir.down),
               lastScrollTop := env.scrollTop } := by
  simp only [handleWindowScroll]
  rw [if_neg (by simp [hmode]), if_pos hmode]
  by_cases hio : s.isIOSSafari = true <;>
  by_cases hpend : s.safariIntersectionTimeout = true <;>
  by_cases hat : env.headerTop ≥ 0 <;>
  by_cases hup : env.scrollTop < s.lastScrollTop <;>
    simp [hio, hpend, hat, hup]

/-! ### C1: how the `idle` state is entered -/

/-- C1, counterexample.  In a reachable `scroll-up` state (one intersection
update reporting the header non-intersecting, so `offscreen = true` while
`data-sticky-state` is still unset, hence not `active`, and no timeout is
pending), a single downward-scroll event writes `idle` synchronously: `idle`
is entered from a state other than `active` and not via the deferred 150ms
timeout path, refuting the claim. -/
theorem c1_counterexample :
    (run attachedScrollUp [Event.intersection false]).stickyState ≠ SState.active ∧
    (run attachedScrollUp [Event.intersection false]).timeout = Option.none ∧
    (step (run attachedScrollUp [Event.intersection false])
        (Event.scroll ⟨10, -20⟩)).stickyState = SState.idle := by decide

/-- Classification of the writers of `idle`: a step ends in `idle` only if it
already was `idle`, or the hide-animation timeout fired, or the scroll
handler's direct write ran (non-upward scroll, non-`always` mode, offscreen,
state not `active`). -/
theorem stickyState_idle_source (s : Header) (e : Event)
    (h : (step s e).stickyState = SState.idle) :
    s.stickyState = SState.idle ∨
    e = Event.timeoutFire ∨
    (s.stickyState ≠ SState.active ∧ s.stickyAttr ≠ some "always" ∧
      s.offscreen = true ∧
      ∃ env, e = Event.scroll env ∧ s.lastScrollTop ≤ env.scrollTop) := by
  cases e with
    | resize height innerWidth =>
        refine Or.inl ?_
        rw [← h]
        simp only [step, resizeObserverCallback, updateMenuVisibility]
        repeat' split
        all_goals rfl
    | intersection b =>
        simp only [step] at h
        split at h
        · rename_i alwaysSticky heq
          simp only [handleIntersectionUpdate, changeMetaThemeColor] at h
          split at h
          · split at h
            · exact Or.inl h
            · cases b <;> simp at h
          · exact Or.inl h
        · exact Or.inl h
    | scroll env =>
        simp only [step] at h
        split at h
        · by_cases hmode : s.stickyAttr = some "always"
          · rw [handleWindowScroll_always_eq s env hmode] at h
            exact Or.inl h
          · by_cases hoff : s.offscreen = true
            · rw [handleWindowScroll_scrollUp_eq s env hmode hoff] at h
              by_cases hup : env.scrollTop < s.lastScrollTop
              · rw [if_pos hup] at h
                split at h <;> simp at h
              · rw [if_neg hup] at h
                by_cases hact : s.stickyState = SState.active
                · rw [if_pos hact] at h
                  exact Or.inl h
                · rw [if_neg hact] at h
                  exact Or.inr (Or.inr
                    ⟨hact, hmode, hoff, env, rfl, le_of_not_lt hup⟩)
            · have hoff' : s.offscreen = false := by
                cases hof : s.offscreen with
                | false => rfl
                | true => exact absurd hof hoff
              rw [handleWindowScroll_noop s env hoff' hmode] at h
              exact Or.inl h
        · exact Or.inl h
    | overflowMinimum m w =>
        refine Or.inl ?_
        rw [← h]
        simp only [step, updateMenuVisibility]
        repeat' split
        all_goals rfl
    | timeoutFire =>
        exact Or.inr (Or.inl rfl)
    | frameFire env =>
        simp only [step] at h
        split at h
        · simp only [safariFrameCallback, changeMetaThemeColor] at h
          split at h
          · unfold safariNewState at h
            split at h <;> simp at h
          · exact Or.inl h
        · exact Or.inl h
    | disconnect =>
        exact Or.inl h

/-- C1 (amended): `idle` is entered either by the firing of the pending
hide-animation timeout, or directly (synchronously) by the scroll handler
when a non-upward scroll is processed in non-`always` mode (hence with
`offscreen = true`) while the state is not `active`; no other event writes
`idle`.  Moreover, in every run of a header attached with
`sticky="scroll-up"`, a pending timeout implies the current state is
`active`, so the deferred-timeout path does transition from `active`. -/
theorem c1_idle_entry :
    (∀ (s : Header) (e : Event), (step s e).stickyState = SState.idle →
        s.stickyState = SState.idle ∨
        e = Event.timeoutFire ∨
        (s.stickyState ≠ SState.active ∧ s.stickyAttr ≠ some "always" ∧
          s.offscreen = true ∧
          ∃ env, e = Event.scroll env ∧ s.lastScrollTop ≤ env.scrollTop)) ∧
    (∀ es : List Event, (run attachedScrollUp es).timeout.isSome = true →
        (run attachedScrollUp es).stickyState = SState.active) :=
  ⟨fun s e h => stickyState_idle_source s e h,
   fun es ht => ((scrollUpInv_run es).2.2.2 ht).1⟩

/-! ### C2: the 0 → 500 → 300 `scroll-up` scenario -/

/-- C2, counterexample.  In the claimed scenario (`sticky="scroll-up"`,
`offscreen = true`, `lastScrollTop = 0`), the first scroll event (to offset
500) writes `none` to `data-scroll-direction`, not the claimed `down`: the
`scroll-up` code path never writes `down`. -/
theorem c2_counterexample :
    (step { attachedScrollUp with offscreen := true }
        (Event.scroll ⟨500, -20⟩)).scrollDirection = SDir.none ∧
    (step { attachedScrollUp with offscreen := true }
        (Event.scroll ⟨500, -20⟩)).scrollDirection ≠ SDir.down := by decide

/-- C2 (amended): with `sticky="scroll-up"`, `offscreen = true` and
`lastScrollTop = 0`, scrolling to 500 and then to 300 (header top still
negative) writes the direction sequence `none` then `up` — not `down` then
`up` — and leaves `data-sticky-state` equal to `active` (not `inactive`),
whatever the prior state, direction and animating flag were. -/
theorem c2_scenario (st : SState) (dir : SDir) (anim : Bool) :
    (step (c2Start st dir anim) (Event.scroll ⟨500, -20⟩)).scrollDirection
        = SDir.none ∧
    (step (step (c2Start st dir anim) (Event.scroll ⟨500, -20⟩))
        (Event.scroll ⟨300, -20⟩)).scrollDirection = SDir.up ∧
    (step (step (c2Start st dir anim) (Event.scroll ⟨500, -20⟩))
        (Event.scroll ⟨300, -20⟩)).stickyState = SState.active := by
  cases st <;> cases dir <;> cases anim <;> decide

/-! ### C3: lifetime of `menuDrawerHiddenWidth` -/

/-- The resize callback when no hide-width is recorded: only the published
height changes. -/
theorem resizeObserverCallback_none (s : Header) (hh iw : ℚ)
    (h : s.menuDrawerHiddenWidth = Option.none) :
    resizeObserverCallback s hh iw =
      { s with headerHeight := toString hh ++ "px" } := by
  simp only [resizeObserverCallback]
  split
  · rename_i w heq
    simp only [h] at heq
    exact Option.noConfusion heq
  · rfl

/-- The resize callback when a hide-width `w` is recorded: the menu is
restored (and the record cleared) exactly when the recorded width is nonzero
(JS truthiness) and the viewport is strictly wider. -/
theorem resizeObserverCallback_some (s : Header) (hh iw w : ℚ)
    (h : s.menuDrawerHiddenWidth = some w) :
    resizeObserverCallback s hh iw =
      if w ≠ 0 ∧ iw > w then
        { s with headerHeight := toString hh ++ "px"
                 drawerDesktopHidden := true
                 menuDrawerHiddenWidth := Option.none
                 menuHidden := false }
      else { s with headerHeight := toString hh ++ "px" } := by
  simp only [resizeObserverCallback, updateMenuVisibility]
  split
  · rename_i w' heq
    simp only [h, Option.some.injEq] at heq
    subst heq
    rfl
  · rename_i hnone
    simp only [h] at hnone
    exact Option.noConfusion hnone

/-- The scroll handler never touches the menu-visibility fields. -/
theorem handleWindowScroll_menu_frame (s : Header) (env : ScrollEnv) :
    (handleWindowScroll s env).menuDrawerHiddenWidth = s.menuDrawerHiddenWidth ∧
    (handleWindowScroll s env).menuHidden = s.menuHidden ∧
    (handleWindowScroll s env).drawerDesktopHidden = s.drawerDesktopHidden := by
  simp only [handleWindowScroll]
  repeat' split
  all_goals exact ⟨rfl, rfl, rfl⟩

/-- No event other than a resize-observer callback or an `overflowMinimum`
event touches the menu-visibility fields. -/
theorem step_menu_frame (s : Header) (e : Event)
    (hr : ∀ hh iw, e ≠ Event.resize hh iw)
    (ho : ∀ m iw, e ≠ Event.overflowMinimum m iw) :
    (step s e).menuDrawerHiddenWidth = s.menuDrawerHiddenWidth ∧
    (step s e).menuHidden = s.menuHidden ∧
    (step s e).drawerDesktopHidden = s.drawerDesktopHidden := by
  cases e with
  | resize hh iw => exact absurd rfl (hr hh iw)
  | overflowMinimum m iw => exact absurd rfl (ho m iw)
  | intersection b =>
      simp only [step]
      split
      · simp only [handleIntersectionUpdate, changeMetaThemeColor]
        repeat' split
        all_goals exact ⟨rfl, rfl, rfl⟩
      · exact ⟨rfl, rfl, rfl⟩
  | scroll env =>
      simp only [step]
      split
      · exact handleWindowScroll_menu_frame s env
      · exact ⟨rfl, rfl, rfl⟩
  | timeoutFire =>
      simp only [step]
      split <;> exact ⟨rfl, rfl, rfl⟩
  | frameFire env =>
      simp only [step]
      split
      · simp only [safariFrameCallback, changeMetaThemeColor]
        split <;> exact ⟨rfl, rfl, rfl⟩
      · exact ⟨rfl, rfl, rfl⟩
  | disconnect => exact ⟨rfl, rfl, rfl⟩

/-- C3, counterexample.  With the hide-width recorded as 800, an
`overflowMinimum` event with `minimumReached = false` clears the record and
restores the inline menu although the viewport (700) has not widened past the
recorded width: the record is not cleared only by the viewport widening past
`w`. -/
theorem c3_counterexample :
    (step c3Hidden (Event.overflowMinimum false 700)).menuDrawerHiddenWidth
        = Option.none ∧
    (step c3Hidden (Event.overflowMinimum false 700)).menuHidden = false ∧
    (step c3Hidden (Event.overflowMinimum false 700)).drawerDesktopHidden
        = true ∧
    ¬((700 : ℚ) > 800) := by decide

/-- C3 (amended): once `menuDrawerHiddenWidth` is set to `w`, the resize
callback clears it (restoring the inline menu and hiding the drawer) exactly
when the viewport width is strictly greater than `w` (and `w` is nonzero, by
JS truthiness); it can also stop being `w` through an `overflowMinimum`
event, which either clears it (payload false) or overwrites it with the
current width (payload true); no other event changes it.  After a clearing,
further resize callbacks leave the menu fields alone, so the restoration
happens exactly once per hide. -/
theorem c3_hiddenWidth :
    (∀ (s : Header) (hh iw w : ℚ), s.resizeObserving = true →
        s.menuDrawerHiddenWidth = some w → w ≠ 0 →
        (iw > w →
          (step s (Event.resize hh iw)).menuDrawerHiddenWidth = Option.none ∧
          (step s (Event.resize hh iw)).menuHidden = false ∧
          (step s (Event.resize hh iw)).drawerDesktopHidden = true) ∧
        (¬iw > w →
          (step s (Event.resize hh iw)).menuDrawerHiddenWidth = some w ∧
          (step s (Event.resize hh iw)).menuHidden = s.menuHidden ∧
          (step s (Event.resize hh iw)).drawerDesktopHidden
            = s.drawerDesktopHidden)) ∧
    (∀ (s : Header) (e : Event) (w : ℚ), s.menuDrawerHiddenWidth = some w →
        (step s e).menuDrawerHiddenWidth ≠ some w →
        (∃ hh iw, e = Event.resize hh iw ∧ s.resizeObserving = true ∧
          w ≠ 0 ∧ iw > w) ∨
        (∃ m iw, e = Event.overflowMinimum m iw ∧ s.overflowListener = true)) ∧
    (∀ (s : Header) (hh iw : ℚ), s.menuDrawerHiddenWidth = Option.none →
        (step s (Event.resize hh iw)).menuDrawerHiddenWidth = Option.none ∧
        (step s (Event.resize hh iw)).menuHidden = s.menuHidden ∧
        (step s (Event.resize hh iw)).drawerDesktopHidden
          = s.drawerDesktopHidden) := by
  refine ⟨?_, ?_, ?_⟩
  · intro s hh iw w hr h hw
    constructor
    · intro hgt
      simp only [step, if_pos hr]
      rw [resizeObserverCallback_some s hh iw w h, if_pos ⟨hw, hgt⟩]
      exact ⟨rfl, rfl, rfl⟩
    · intro hngt
      simp only [step, if_pos hr]
      rw [resizeObserverCallback_some s hh iw w h,
        if_neg (fun hc => hngt hc.2)]
      exact ⟨h, rfl, rfl⟩
  · intro s e w h hne
    cases e with
    | resize hh iw =>
        by_cases hr : s.resizeObserving = true
        · by_cases hw : w ≠ 0 ∧ iw > w
          · exact Or.inl ⟨hh, iw, rfl, hr, hw.1, hw.2⟩
          · refine absurd ?_ hne
            simp only [step, if_pos hr]
            rw [resizeObserverCallback_some s hh iw w h, if_neg hw]
            exact h
        · refine absurd ?_ hne
          simp only [step, if_neg hr]
          exact h
    | overflowMinimum m iw =>
        by_cases hl : s.overflowListener = true
        · exact Or.inr ⟨m, iw, rfl, hl⟩
        · refine absurd ?_ hne
          simp only [step, if_neg hl]
          exact h
    | intersection b =>
        refine absurd ?_ hne
        rw [(step_menu_frame s (Event.intersection b)
          (fun hh iw hc => Event.noConfusion hc)
          (fun m iw hc => Event.noConfusion hc)).1]
        exact h
    | scroll env =>
        refine absurd ?_ hne
        rw [(step_menu_frame s (Event.scroll env)
          (fun hh iw hc => Event.noConfusion hc)
          (fun m iw hc => Event.noConfusion hc)).1]
        exact h
    | timeoutFire =>
        refine absurd ?_ hne
        rw [(step_menu_frame s Event.timeoutFire
          (fun hh iw hc => Event.noConfusion hc)
          (fun m iw hc => Event.noConfusion hc)).1]
        exact h
    | frameFire env =>
        refine absurd ?_ hne
        rw [(step_menu_frame s (Event.frameFire env)
          (fun hh iw hc => Event.noConfusion hc)
          (fun m iw hc => Event.noConfusion hc)).1]
        exact h
    | disconnect =>
        refine absurd ?_ hne
        rw [(step_menu_frame s Event.disconnect
          (fun hh iw hc => Event.noConfusion hc)
          (fun m iw hc => Event.noConfusion hc)).1]
        exact h
  · intro s hh iw h
    by_cases hr : s.resizeObserving = true
    · simp only [step, if_pos hr]
      rw [resizeObserverCallback_none s hh iw h]
      exact ⟨h, rfl, rfl⟩
    · simp only [step, if_neg hr]
      exact ⟨h, by simp, by simp⟩

/-! ### C4: the 0.95 threshold in `always` mode -/

/-- C4: in `always` mode off the iOS-Safari path, an intersection update at
visibility ratio `r` sets `data-sticky-state` to `active` iff `r < 0.95`,
and to `inactive` iff `r ≥ 0.95`; a further update whose ratio lies on the
same side of the 0.95 boundary leaves the state unchanged, so there is at
most one state flip per boundary crossing. -/
theorem c4_alwaysThreshold (s : Header) (r : ℚ)
    (hio : s.isIOSSafari = false)
    (hobs : s.intersectionObserver = some true) :
    ((step s (Event.intersection (intersectsAt95 r))).stickyState
        = SState.active ↔ r < 95 / 100) ∧
    ((step s (Event.intersection (intersectsAt95 r))).stickyState
        = SState.inactive ↔ ¬r < 95 / 100) ∧
    (∀ r2 : ℚ, (r < 95 / 100 ↔ r2 < 95 / 100) →
      (step (step s (Event.intersection (intersectsAt95 r)))
          (Event.intersection (intersectsAt95 r2))).stickyState
        = (step s (Event.intersection (intersectsAt95 r))).stickyState) := by
  have key : ∀ (s' : Header) (b : Bool), s'.isIOSSafari = false →
      s'.intersectionObserver = some true →
      (step s' (Event.intersection b)).stickyState
          = (if b then SState.inactive else SState.active) ∧
      (step s' (Event.intersection b)).isIOSSafari = false ∧
      (step s' (Event.intersection b)).intersectionObserver = some true := by
    intro s' b hio' hobs'
    have h1 : step s' (Event.intersection b) =
        changeMetaThemeColor
          { s' with stickyState := if b then SState.inactive else SState.active } := by
      simp only [step, hobs']
      simp only [handleIntersectionUpdate, hio']
      simp [hobs']
    rw [h1]
    exact ⟨rfl, hio', hobs'⟩
  obtain ⟨k1, k2, k3⟩ := key s (intersectsAt95 r) hio hobs
  refine ⟨?_, ?_, ?_⟩
  · rw [k1]
    unfold intersectsAt95
    by_cases hr : 95 / 100 ≤ r
    · simp [hr, not_lt.mpr hr]
    · simp [hr, lt_of_not_ge hr]
  · rw [k1]
    unfold intersectsAt95
    by_cases hr : 95 / 100 ≤ r
    · simp [hr, not_lt.mpr hr]
    · simp [hr, lt_of_not_ge hr]
  · intro r2 hiff
    obtain ⟨k1', _, _⟩ :=
      key (step s (Event.intersection (intersectsAt95 r))) (intersectsAt95 r2) k2 k3
    rw [k1', k1]
    unfold intersectsAt95
    by_cases hr : 95 / 100 ≤ r
    · have hr2 : 95 / 100 ≤ r2 := by
        by_contra hc
        exact absurd (hiff.mpr (lt_of_not_ge hc)) (not_lt.mpr hr)
      simp [hr, hr2]
    · have hr2 : ¬95 / 100 ≤ r2 :=
        fun hc => absurd (hiff.mp (lt_of_not_ge hr)) (not_lt.mpr hc)
      simp [hr, hr2]

/-- C4, witness: concrete instance at `r = 1/2` on an attached `always`
header. -/
theorem c4_alwaysThreshold_witness :
    (step attachedAlways (Event.intersection (intersectsAt95 (1 / 2)))).stickyState
        = SState.active ↔ (1 / 2 : ℚ) < 95 / 100 :=
  (c4_alwaysThreshold attachedAlways (1 / 2) (by decide) (by decide)).1

/-! ### C5: the iOS-Safari scroll-driven path in `always` mode -/

/-- C5, counterexample.  At frame-time geometry `headerTop = 10`,
`scrollTop = 0` — a top 10px below the natural position, so not "within 5px"
of it — the code computes `inactive` (its condition is the one-sided
`headerTop ≥ -5 ∧ scrollTop ≤ 5`) and the deferred frame callback writes
`inactive`, where the claim's "exactly when within 5px" requires
`active`. -/
theorem c5_counterexample :
    safariNewState 10 0 = SState.inactive ∧
    claimedSafariNewState 10 0 = SState.active ∧
    (step c5Pending (Event.frameFire ⟨0, 10⟩)).stickyState = SState.inactive := by
  decide

/-- C5 (amended): on the iOS-Safari path in `always` mode, intersection
updates leave the whole state unchanged; each scroll event leaves
`data-sticky-state` untouched and ensures exactly one animation frame is
pending; the frame callback recomputes the geometry at frame time and writes
`inactive` exactly when `headerTop ≥ -5` (the top at most 5px above its
natural position — with no bound below) and `scrollTop ≤ 5` (with no bound
above −, negative rubber-band offsets included), else `active`, performing
the write (with the theme-color side effect) only if the state differs, and
clearing the pending handle. -/
theorem c5_iosPath :
    (∀ (s : Header) (b : Bool), s.isIOSSafari = true →
        s.intersectionObserver = some true →
        step s (Event.intersection b) = s) ∧
    (∀ (s : Header) (env : ScrollEnv), s.isIOSSafari = true →
        s.stickyAttr = some "always" →
        (handleWindowScroll s env).stickyState = s.stickyState ∧
        (handleWindowScroll s env).safariIntersectionTimeout = true ∧
        (handleWindowScroll s env).metaThemeColorCount = s.metaThemeColorCount) ∧
    (∀ (s : Header) (env : ScrollEnv), s.safariIntersectionTimeout = true →
        (step s (Event.frameFire env)).stickyState
          = safariNewState env.headerTop env.scrollTop ∧
        (step s (Event.frameFire env)).safariIntersectionTimeout = false ∧
        (s.stickyState = safariNewState env.headerTop env.scrollTop →
          step s (Event.frameFire env)
            = { s with safariIntersectionTimeout := false }) ∧
        (s.stickyState ≠ safariNewState env.headerTop env.scrollTop →
          (step s (Event.frameFire env)).metaThemeColorCount
            = s.metaThemeColorCount + 1)) ∧
    (∀ t st : ℚ, safariNewState t st = SState.inactive ↔ (t ≥ -5 ∧ st ≤ 5)) := by
  refine ⟨?_, ?_, ?_, ?_⟩
  · intro s b hio hobs
    simp only [step, hobs]
    simp only [handleIntersectionUpdate, hio]
    simp
  · intro s env hio hmode
    rw [handleWindowScroll_always_eq s env hmode]
    refine ⟨rfl, ?_, rfl⟩
    rw [hio]
    simp
  · intro s env hp
    simp only [step, if_pos hp]
    by_cases hst : s.stickyState = safariNewState env.headerTop env.scrollTop
    · simp only [safariFrameCallback, changeMetaThemeColor]
      rw [if_neg (by simp [← hst])]
      exact ⟨hst.symm ▸ rfl, rfl, fun _ => rfl, fun hne => absurd hst hne⟩
    · simp only [safariFrameCallback, changeMetaThemeColor]
      rw [if_pos (show ({ s with safariIntersectionTimeout := false } :
          Header).stickyState ≠ safariNewState env.headerTop env.scrollTop from hst)]
      exact ⟨rfl, rfl, fun heq => absurd heq hst, fun _ => rfl⟩
  · intro t st
    unfold safariNewState
    by_cases hc : t ≥ -5 ∧ st ≤ 5
    · simp [hc]
    · simp [hc]

/-! ### C6: when the `sticky` attribute is read -/

/-- C6, counterexample.  Attach with `sticky="always"`, then change the
attribute to `scroll-up` afterwards (nothing else differs): a scroll event to
offset 100 with the header's top at −20 writes `data-scroll-direction =
down` in the unchanged run but is an early-returned no-op in the mutated run
(direction still unset) — the scroll handler re-reads the attribute on every
event, so post-attach attribute changes do alter behaviour. -/
theorem c6_counterexample :
    (step attachedAlways (Event.scroll ⟨100, -20⟩)).scrollDirection
        = SDir.down ∧
    (step { attachedAlways with stickyAttr := some "scroll-up" }
        (Event.scroll ⟨100, -20⟩)).scrollDirection = SDir.unset ∧
    (step attachedAlways (Event.scroll ⟨100, -20⟩)).scrollDirection
      ≠ (step { attachedAlways with stickyAttr := some "scroll-up" }
        (Event.scroll ⟨100, -20⟩)).scrollDirection := by decide

/-- C6 (amended): the observer configuration and listener registration are
fixed by the attribute value read at attach time, and no handler other than
the scroll handler re-reads the attribute — every non-scroll event produces
identical observable outputs in two states differing only in the `sticky`
attribute; the scroll handler, however, re-reads the attribute on each event,
so a post-attach change does alter its behaviour (see the
counterexample). -/
theorem c6_attrReadOnce :
    (∀ (s : Header) (v : Option String) (hh iw : ℚ),
      outputs (step { s with stickyAttr := v } (Event.resize hh iw))
        = outputs (step s (Event.resize hh iw))) ∧
    (∀ (s : Header) (v : Option String) (b : Bool),
      outputs (step { s with stickyAttr := v } (Event.intersection b))
        = outputs (step s (Event.intersection b))) ∧
    (∀ (s : Header) (v : Option String) (m : Bool) (iw : ℚ),
      outputs (step { s with stickyAttr := v } (Event.overflowMinimum m iw))
        = outputs (step s (Event.overflowMinimum m iw))) ∧
    (∀ (s : Header) (v : Option String),
      outputs (step { s with stickyAttr := v } Event.timeoutFire)
        = outputs (step s Event.timeoutFire)) ∧
    (∀ (s : Header) (v : Option String) (env : ScrollEnv),
      outputs (step { s with stickyAttr := v } (Event.frameFire env))
        = outputs (step s (Event.frameFire env))) ∧
    (∀ (s : Header) (v : Option String),
      outputs (step { s with stickyAttr := v } Event.disconnect)
        = outputs (step s Event.disconnect)) := by
  refine ⟨?_, ?_, ?_, ?_, ?_, ?_⟩
  · intro s v hh iw
    by_cases hr : s.resizeObserving = true
    · cases hmw : s.menuDrawerHiddenWidth with
      | none => simp [step, hr, resizeObserverCallback, hmw, outputs]
      | some w =>
          by_cases hc : w ≠ 0 ∧ iw > w <;>
            simp [step, hr, resizeObserverCallback, updateMenuVisibility,
              hmw, hc, outputs]
    · simp [step, hr, outputs]
  · intro s v b
    cases hobs : s.intersectionObserver with
    | none => simp [step, hobs, outputs]
    | some a =>
        cases a <;> cases b <;>
          by_cases hio : s.isIOSSafari = true <;>
            simp [step, hobs, handleIntersectionUpdate,
              changeMetaThemeColor, outputs, hio]
  · intro s v m iw
    by_cases hl : s.overflowListener = true <;> cases m <;>
      simp [step, hl, updateMenuVisibility, outputs]
  · intro s v
    cases ht : s.timeout <;> simp [step, ht, outputs]
  · intro s v env
    by_cases hsf : s.safariIntersectionTimeout = true <;>
      by_cases hst : s.stickyState = safariNewState env.headerTop env.scrollTop <;>
        simp [step, hsf, safariFrameCallback, changeMetaThemeColor, outputs, hst]
  · intro s v
    simp [step, disconnectedCallback, outputs]

/-! ### C7: the deferred hide transition and `data-animating` -/

/-- C7: in `scroll-up` mode, a scroll event processed while `active` and not
scrolling upward leaves the state `active`, sets `data-animating`, and
schedules the timeout with delay `animationDelay = 150`; from an `active`
state, only the timeout's firing can turn the state to `idle` (no event does
it earlier); the firing writes `idle` and removes `data-animating` in the
same callback; and in every `scroll-up` run the `data-animating` flag is
present whenever a timeout is pending. -/
theorem c7_hideDelay :
    (∀ (s : Header) (env : ScrollEnv), s.stickyAttr = some "scroll-up" →
        s.offscreen = true → s.stickyState = SState.active →
        ¬env.scrollTop < s.lastScrollTop →
        (handleWindowScroll s env).stickyState = SState.active ∧
        (handleWindowScroll s env).animating = true ∧
        (handleWindowScroll s env).timeout = some animationDelay ∧
        (handleWindowScroll s env).scrollDirection = SDir.none) ∧
    animationDelay = 150 ∧
    (∀ (s : Header) (e : Event), s.stickyState = SState.active →
        (step s e).stickyState = SState.idle → e = Event.timeoutFire) ∧
    (∀ (s : Header) (d : ℚ), s.timeout = some d →
        (step s Event.timeoutFire).stickyState = SState.idle ∧
        (step s Event.timeoutFire).animating = false ∧
        (step s Event.timeoutFire).timeout = Option.none) ∧
    (∀ es : List Event, (run attachedScrollUp es).timeout.isSome = true →
        (run attachedScrollUp es).animating = true) := by
  refine ⟨?_, rfl, ?_, ?_, ?_⟩
  · intro s env hmode hoff hact hup
    rw [handleWindowScroll_scrollUp_eq s env (by simp [hmode]) hoff,
      if_neg hup, if_pos hact]
    exact ⟨hact, rfl, rfl, rfl⟩
  · intro s e hact h
    rcases stickyState_idle_source s e h with h1 | h2 | h3
    · rw [hact] at h1
      exact absurd h1 (by decide)
    · exact h2
    · exact absurd hact h3.1
  · intro s d ht
    simp [step, ht]
  · intro es ht
    exact ((scrollUpInv_run es).2.2.2 ht).2

/-! ### C8: scrolling up to the natural position resets everything -/

/-- C8: in `scroll-up` mode, a scroll event processed while offscreen in
which the offset decreased and the header's top is at/past the natural
position (`≥ 0`) always yields `offscreen = false`,
`data-sticky-state = inactive` and `data-scroll-direction = none` (and clears
`data-animating`), whatever the prior state, direction and animating flag
were. -/
theorem c8_resetAtTop (s : Header) (env : ScrollEnv)
    (hmode : s.stickyAttr = some "scroll-up") (hoff : s.offscreen = true)
    (hup : env.scrollTop < s.lastScrollTop) (htop : env.headerTop ≥ 0) :
    (handleWindowScroll s env).offscreen = false ∧
    (handleWindowScroll s env).stickyState = SState.inactive ∧
    (handleWindowScroll s env).scrollDirection = SDir.none ∧
    (handleWindowScroll s env).animating = false := by
  rw [handleWindowScroll_scrollUp_eq s env (by simp [hmode]) hoff,
    if_pos hup, if_pos htop]
  exact ⟨rfl, rfl, rfl, rfl⟩

/-- C8, witness: scrolling up to offset 100 with the header's top at 0 resets
the concrete state `c8State`. -/
theorem c8_resetAtTop_witness :
    (handleWindowScroll c8State ⟨100, 0⟩).offscreen = false ∧
    (handleWindowScroll c8State ⟨100, 0⟩).stickyState = SState.inactive ∧
    (handleWindowScroll c8State ⟨100, 0⟩).scrollDirection = SDir.none ∧
    (handleWindowScroll c8State ⟨100, 0⟩).animating = false :=
  c8_resetAtTop c8State ⟨100, 0⟩ (by decide) (by decide) (by decide) (by decide)

/-! ### C9: teardown -/

/-- C9: after `disconnectedCallback`, the published `--header-height` value
is exactly `"0px"`, both observers are disconnected, both listeners are
removed, the pending timeout and animation frame are cancelled (both handle
fields null), and every subsequently delivered event — synthetic scrolls,
observer entries, overflow events, stale timer or frame callbacks, or a
second disconnect — leaves the state completely unchanged. -/
theorem c9_teardown (s : Header) (e : Event) :
    (step s Event.disconnect).headerHeight = "0px" ∧
    (step s Event.disconnect).resizeObserving = false ∧
    (step s Event.disconnect).intersectionObserver = Option.none ∧
    (step s Event.disconnect).scrollListener = false ∧
    (step s Event.disconnect).overflowListener = false ∧
    (step s Event.disconnect).timeout = Option.none ∧
    (step s Event.disconnect).safariIntersectionTimeout = false ∧
    step (step s Event.disconnect) e = step s Event.disconnect := by
  refine ⟨rfl, rfl, rfl, rfl, rfl, rfl, rfl, ?_⟩
  cases e <;> simp [step, disconnectedCallback]

/-! ### C10: `down` is never written on the `scroll-up` path -/

/-- The resize callback writes neither sticky state nor direction. -/
theorem step_resize_core (s : Header) (hh iw : ℚ) :
    (step s (Event.resize hh iw)).stickyState = s.stickyState ∧
    (step s (Event.resize hh iw)).scrollDirection = s.scrollDirection := by
  simp only [step, resizeObserverCallback, updateMenuVisibility]
  repeat' split
  all_goals exact ⟨rfl, rfl⟩

/-- The overflow-minimum handler writes neither sticky state nor
direction. -/
theorem step_overflow_core (s : Header) (m : Bool) (iw : ℚ) :
    (step s (Event.overflowMinimum m iw)).stickyState = s.stickyState ∧
    (step s (Event.overflowMinimum m iw)).scrollDirection = s.scrollDirection := by
  simp only [step, updateMenuVisibility]
  repeat' split
  all_goals exact ⟨rfl, rfl⟩

/-- Intersection updates never write `data-scroll-direction`. -/
theorem step_intersection_dir (s : Header) (b : Bool) :
    (step s (Event.intersection b)).scrollDirection = s.scrollDirection := by
  simp only [step, handleIntersectionUpdate, changeMetaThemeColor]
  repeat' split
  all_goals rfl

/-- The timeout and frame callbacks never write `data-scroll-direction`. -/
theorem step_deferred_dir (s : Header) (env : ScrollEnv) :
    (step s Event.timeoutFire).scrollDirection = s.scrollDirection ∧
    (step s (Event.frameFire env)).scrollDirection = s.scrollDirection := by
  constructor
  · simp only [step]
    split <;> rfl
  · simp only [step, safariFrameCallback, changeMetaThemeColor]
    repeat' split
    all_goals rfl

/-- C10: while the `sticky` attribute is anything other than `always` (in
particular in `scroll-up` mode), no event ever writes `down` to
`data-scroll-direction`: if a step ends with direction `down`, it was already
`down` before.  Hence every direction write on the `scroll-up` code path is
`none` or `up`, and `down` can only ever be written in `always` mode. -/
theorem c10_noDownInScrollUp (s : Header) (e : Event)
    (hmode : s.stickyAttr ≠ some "always") :
    (step s e).scrollDirection = SDir.down → s.scrollDirection = SDir.down := by
  intro h
  cases e with
  | resize hh iw =>
      rw [(step_resize_core s hh iw).2] at h
      exact h
  | intersection b =>
      rw [step_intersection_dir s b] at h
      exact h
  | overflowMinimum m iw =>
      rw [(step_overflow_core s m iw).2] at h
      exact h
  | timeoutFire =>
      rw [(step_deferred_dir s ⟨0, 0⟩).1] at h
      exact h
  | frameFire env =>
      rw [(step_deferred_dir s env).2] at h
      exact h
  | disconnect =>
      exact h
  | scroll env =>
      simp only [step] at h
      split at h
      · by_cases hoff : s.offscreen = true
        · rw [handleWindowScroll_scrollUp_eq s env hmode hoff] at h
          by_cases hup : env.scrollTop < s.lastScrollTop
          · rw [if_pos hup] at h
            split at h <;> simp at h
          · rw [if_neg hup] at h
            by_cases hact : s.stickyState = SState.active
            · rw [if_pos hact] at h
              simp at h
            · rw [if_neg hact] at h
              simp at h
        · have hoff' : s.offscreen = false := by
            cases ho : s.offscreen with
            | false => rfl
            | true => exact absurd ho hoff
          rw [handleWindowScroll_noop s env hoff' hmode] at h
          exact h
      · exact h

/-- C10, witness: a no-op event on a `scroll-up` header whose direction is
already `down` (the hypotheses are discharged at this concrete input). -/
theorem c10_noDownInScrollUp_witness :
    ({ attachedScrollUp with scrollDirection := SDir.down } : Header).scrollDirection
      = SDir.down :=
  c10_noDownInScrollUp
    { attachedScrollUp with scrollDirection := SDir.down }
    Event.timeoutFire (by decide) (by decide)
